import Mathlib

/-!
Verification of the resource-resolution layer of
`google/cloud/aiplatform/tensorboard/uploader_utils.py`.

The embedding models the two resource managers
(`OnePlatformResourceManager`, `TimeSeriesResourceManager`) as pure
state-passing functions.  The remote `TensorboardServiceClient` collaborator
is modelled as a record of pure functions supplied as a parameter, and every
resolver function additionally returns the list of remote calls it issued,
in order, so that properties about which remote calls happen (and with which
arguments) can be stated and proved.

Python exceptions become an `Except` result; the Python `dict` caches become
association lists (keys are unique because the code only ever inserts on a
lookup miss); `uuid.uuid4()` is modelled as a fresh token drawn from a
counter threaded through the state (no claim depends on the token's value,
only on its role as a create argument).
-/

set_option autoImplicit false

namespace UploaderUtils

/-- A remote resource as far as this layer observes it: its service-assigned
resource name (`tb_run.name` / `time_series.name`) and its caller-chosen
display name.  A freshly constructed proto (`TensorboardRun()` /
`TensorboardTimeSeries()`) has `name = ""`. -/
structure Resource where
  name : String
  display_name : String
deriving DecidableEq, Repr

/-- Errors raised by the remote service client.  The source catches exactly
`exceptions.InvalidArgument`; every other exception class is collapsed into
`other`, which the source never catches. -/
inductive ApiError where
  | invalidArgument (message : String)
  | other (kind : String) (message : String)
deriving DecidableEq, Repr

/-- Errors a resolve call can raise to its caller. -/
inductive ResolveError where
  /-- a service exception propagated unchanged (`raise` re-raise path) -/
  | apiError (e : ApiError)
  /-- `ExistingResourceNotFoundError` -/
  | existingResourceNotFound (message : String)
  /-- `ValueError` -/
  | valueError (message : String)
deriving DecidableEq, Repr

/-- One remote call, recorded with the arguments the source passes.
`list_tensorboard_runs` is called with only `parent=` in the source
(no `filter=` argument), hence it carries no filter here; the time-series
list call carries the `filter` string the source builds. -/
inductive ApiCall where
  | create_tensorboard_run (parent : String) (display_name : String) (run_id : String)
  | list_tensorboard_runs (parent : String)
  | create_tensorboard_time_series (parent : String) (display_name : String)
  | list_tensorboard_time_series (parent : String) (filterStr : String)
deriving DecidableEq, Repr

/-- Is this call a run-level remote call? -/
def ApiCall.isRunCall : ApiCall → Bool
  | .create_tensorboard_run _ _ _ => true
  | .list_tensorboard_runs _ => true
  | _ => false

/-- Is this call a time-series-level remote call? -/
def ApiCall.isTimeSeriesCall : ApiCall → Bool
  | .create_tensorboard_time_series _ _ => true
  | .list_tensorboard_time_series _ _ => true
  | _ => false

/-- Is this call a list (fallback enumeration) call? -/
def ApiCall.isListCall : ApiCall → Bool
  | .list_tensorboard_runs _ => true
  | .list_tensorboard_time_series _ _ => true
  | _ => false

/-- Is this call a create call? -/
def ApiCall.isCreateCall : ApiCall → Bool
  | .create_tensorboard_run _ _ _ => true
  | .create_tensorboard_time_series _ _ => true
  | _ => false

/-- The abstract remote service (`self._api`), a `TensorboardServiceClient`.
Each method is a pure function of the arguments the source passes.
`list_tensorboard_runs` takes only the parent (the source passes no filter);
`list_tensorboard_time_series` takes the parent and the filter string. -/
structure TensorboardServiceApi where
  create_tensorboard_run : String → Resource → String → Except ApiError Resource
  list_tensorboard_runs : String → List Resource
  create_tensorboard_time_series : String → Resource → Except ApiError Resource
  list_tensorboard_time_series : String → String → List Resource

/-- Python `dict` lookup on an association list (`k in d` / `d[k]`). -/
def dictLookup {α β : Type} [DecidableEq α] : List (α × β) → α → Option β
  | [], _ => none
  | (k, v) :: rest, key => if k = key then some v else dictLookup rest key

/-- Python `dict` insertion of a fresh key (`d[k] = v`); the code only
inserts keys that were just looked up and missed. -/
def dictInsert {α β : Type} [DecidableEq α] (d : List (α × β)) (k : α) (v : β) :
    List (α × β) :=
  d ++ [(k, v)]

/-- Does `haystack` start with `needle`? (helper for the substring test). -/
def charsStartWith : List Char → List Char → Bool
  | [], _ => true
  | _ :: _, [] => false
  | a :: as, b :: bs => a = b && charsStartWith as bs

/-- Does `haystack` contain `needle` as a contiguous run? -/
def charsContain (needle : List Char) : List Char → Bool
  | [] => charsStartWith needle []
  | b :: bs => charsStartWith needle (b :: bs) || charsContain needle bs

/-- The source's conflict test: `"already exist" in e.message`. -/
def containsAlreadyExist (message : String) : Bool :=
  charsContain "already exist".data message.data

/-- Lower-case hexadecimal digit. -/
def hexDigit (n : Nat) : Char :=
  if n < 10 then Char.ofNat (48 + n) else Char.ofNat (87 + n)

/-- Four lower-case hex digits, as Python's `\uXXXX` escapes print them. -/
def hex4 (n : Nat) : String :=
  String.mk [hexDigit (n / 4096 % 16), hexDigit (n / 256 % 16),
    hexDigit (n / 16 % 16), hexDigit (n % 16)]

/-- Python `json.dumps` escaping of one character (default `ensure_ascii=True`:
everything outside printable ASCII 0x20–0x7e becomes an escape, astral
characters become a surrogate pair). -/
def jsonEscapeChar (c : Char) : String :=
  if c = '"' then "\\\""
  else if c = '\\' then "\\\\"
  else if c = '\n' then "\\n"
  else if c = '\r' then "\\r"
  else if c = '\t' then "\\t"
  else if c.toNat = 8 then "\\b"
  else if c.toNat = 12 then "\\f"
  else if c.toNat < 32 ∨ c.toNat > 126 then
    if c.toNat < 65536 then "\\u" ++ hex4 c.toNat
    else
      "\\u" ++ hex4 (55296 + (c.toNat - 65536) / 1024) ++
        "\\u" ++ hex4 (56320 + (c.toNat - 65536) % 1024)
  else String.singleton c

/-- Python `json.dumps` applied to a string (`json.dumps(str(tag_name))`):
a double-quoted, escaped literal. -/
def jsonDumps (s : String) : String :=
  "\"" ++ String.join (s.data.map jsonEscapeChar) ++ "\""

/-- The filter string the source builds for the time-series fallback list:
`"display_name = \x7b\x7d".format(json.dumps(str(tag_name)))`. -/
def displayNameFilter (tag_name : String) : String :=
  "display_name = " ++ jsonDumps tag_name

/-- `uuid.uuid4()`: a fresh token per call, modelled by a counter threaded
through the manager state. -/
def uuid4 (counter : Nat) : String :=
  "uuid-" ++ toString counter

/-- State of an `OnePlatformResourceManager` instance: the fixed parent
experiment, the two caches, and the uuid counter (modelling the stream of
fresh `uuid.uuid4()` tokens). -/
structure OnePlatformResourceManager where
  experiment_resource_name : String
  run_name_to_run_resource_name : List (String × String)
  run_tag_name_to_time_series_name : List ((String × String) × String)
  uuid_counter : Nat
deriving DecidableEq, Repr

/-- `OnePlatformResourceManager.__init__`. -/
def OnePlatformResourceManager.mk0 (experiment_resource_name : String) :
    OnePlatformResourceManager :=
  ⟨experiment_resource_name, [], [], 0⟩

/-- The `for tb_run in runs_pages: if tb_run.display_name == run_name: break`
loop of `_create_or_get_run_resource`, including Python's loop-variable
semantics: `current` is the value `tb_run` holds before the loop (the local
draft); after the loop `tb_run` is the first match if one exists, otherwise
the last element of the list, otherwise still `current`. -/
def runLoop (current : Resource) (run_name : String) : List Resource → Resource
  | [] => current
  | r :: rest => if r.display_name = run_name then r else runLoop r run_name rest

/-- `OnePlatformResourceManager._create_or_get_run_resource`.
Builds a draft `TensorboardRun` with `display_name = run_name`, attempts
`create_tensorboard_run(parent, draft, uuid4())`; on `InvalidArgument` whose
message contains `"already exist"` it lists ALL runs under the parent
(no filter is passed in the source) and scans for a matching display name,
raising `ExistingResourceNotFoundError` when the scan's final `tb_run` does
not match; any other error re-raises.  Returns the result, the updated state
(only the uuid counter changes here), and the remote calls made. -/
def OnePlatformResourceManager.create_or_get_run_resource
    (api : TensorboardServiceApi) (self : OnePlatformResourceManager)
    (run_name : String) :
    Except ResolveError Resource × OnePlatformResourceManager × List ApiCall :=
  let draft : Resource := ⟨"", run_name⟩
  let run_id := uuid4 self.uuid_counter
  let self1 : OnePlatformResourceManager :=
    ⟨self.experiment_resource_name, self.run_name_to_run_resource_name,
      self.run_tag_name_to_time_series_name, self.uuid_counter + 1⟩
  let parent := self.experiment_resource_name
  let tr0 := [ApiCall.create_tensorboard_run parent run_name run_id]
  match api.create_tensorboard_run parent draft run_id with
  | .ok tb_run => (.ok tb_run, self1, tr0)
  | .error e =>
    match e with
    | .invalidArgument msg =>
      if containsAlreadyExist msg then
        let runs_pages := api.list_tensorboard_runs parent
        let tr1 := tr0 ++ [ApiCall.list_tensorboard_runs parent]
        let tb_run := runLoop draft run_name runs_pages
        if tb_run.display_name ≠ run_name then
          (.error (.existingResourceNotFound
            ("Run with name " ++ run_name ++
              " already exists but is not resource list.")), self1, tr1)
        else
          (.ok tb_run, self1, tr1)
      else
        (.error (.apiError e), self1, tr0)
    | .other _ _ => (.error (.apiError e), self1, tr0)

/-- `OnePlatformResourceManager.get_run_resource_name`: cache hit returns the
cached resource name with no remote call; cache miss runs
`_create_or_get_run_resource` and, on success, stores `tb_run.name` under
`run_name` before returning it.  A raised error propagates and skips the
cache write. -/
def OnePlatformResourceManager.get_run_resource_name
    (api : TensorboardServiceApi) (self : OnePlatformResourceManager)
    (run_name : String) :
    Except ResolveError String × OnePlatformResourceManager × List ApiCall :=
  match dictLookup self.run_name_to_run_resource_name run_name with
  | some v => (.ok v, self, [])
  | none =>
    match OnePlatformResourceManager.create_or_get_run_resource api self run_name with
    | (.ok tb_run, s, tr) =>
      (.ok tb_run.name,
        ⟨s.experiment_resource_name,
          dictInsert s.run_name_to_run_resource_name run_name tb_run.name,
          s.run_tag_name_to_time_series_name, s.uuid_counter⟩, tr)
    | (.error e, s, tr) => (.error e, s, tr)

/-- The counting loop shared by both time-series fallbacks:
`num = 0; time_series = None; for ts in lst: num += 1; if num > 1: break;
time_series = ts`.  Note the order: the counter is bumped and tested BEFORE
the assignment, so on a two-element list the loop ends with `num = 2` and
`time_series` still holding the first element. -/
def tsLoop : Nat → Option Resource → List Resource → Nat × Option Resource
  | num, cur, [] => (num, cur)
  | num, cur, t :: rest =>
    if num + 1 > 1 then (num + 1, cur) else tsLoop (num + 1) (some t) rest

/-- `OnePlatformResourceManager._create_or_get_time_series`.
Obtains a draft from the caller's factory, sets its display name to
`tag_name`, attempts `create_tensorboard_time_series(parent, draft)`; on
`InvalidArgument` containing `"already exist"` it lists time series under the
run with the exact display-name filter and counts results: none found raises
`ExistingResourceNotFoundError` (`if not time_series`), more than one raises
`ValueError` (`if num != 1`); other errors re-raise.  The function touches no
manager state, so it returns only the result and the calls made.
(The body of `TimeSeriesResourceManager.get_or_create` after its cache check,
source lines 306–345, is textually identical to this function's body, lines
212–251, with `self._run_resource_id` for the parent; both are embedded by
this one definition.) -/
def OnePlatformResourceManager.create_or_get_time_series
    (api : TensorboardServiceApi) (run_resource_name : String) (tag_name : String)
    (time_series_resource_creator : Unit → Resource) :
    Except ResolveError Resource × List ApiCall :=
  let draft0 := time_series_resource_creator ()
  let draft : Resource := ⟨draft0.name, tag_name⟩
  let tr0 := [ApiCall.create_tensorboard_time_series run_resource_name tag_name]
  match api.create_tensorboard_time_series run_resource_name draft with
  | .ok ts => (.ok ts, tr0)
  | .error e =>
    match e with
    | .invalidArgument msg =>
      if containsAlreadyExist msg then
        let fStr := displayNameFilter tag_name
        let lst := api.list_tensorboard_time_series run_resource_name fStr
        let tr1 := tr0 ++ [ApiCall.list_tensorboard_time_series run_resource_name fStr]
        match tsLoop 0 none lst with
        | (num, result) =>
          match result with
          | none =>
            (.error (.existingResourceNotFound
              ("Could not find time series resource with display name: " ++
                tag_name)), tr1)
          | some ts =>
            if num ≠ 1 then
              (.error (.valueError
                ("More than one time series resource found with display_name: " ++
                  tag_name)), tr1)
            else (.ok ts, tr1)
      else (.error (.apiError e), tr0)
    | .other _ _ => (.error (.apiError e), tr0)

/-- `OnePlatformResourceManager.get_time_series_resource_name`: cache hit on
the `(run_name, tag_name)` key returns the cached name with no remote call;
cache miss first evaluates `self.get_run_resource_name(run_name)` (the first
argument of the `_create_or_get_time_series` call, so the run-level protocol
runs to completion before any time-series call), then runs the time-series
create-or-get under the resolved run, and on success stores the time-series
name under `(run_name, tag_name)`.  Errors from either step propagate and
skip the time-series cache write. -/
def OnePlatformResourceManager.get_time_series_resource_name
    (api : TensorboardServiceApi) (self : OnePlatformResourceManager)
    (run_name tag_name : String) (time_series_resource_creator : Unit → Resource) :
    Except ResolveError String × OnePlatformResourceManager × List ApiCall :=
  match dictLookup self.run_tag_name_to_time_series_name (run_name, tag_name) with
  | some v => (.ok v, self, [])
  | none =>
    match OnePlatformResourceManager.get_run_resource_name api self run_name with
    | (.error e, s, tr) => (.error e, s, tr)
    | (.ok run_resource, s, tr) =>
      match OnePlatformResourceManager.create_or_get_time_series api run_resource
          tag_name time_series_resource_creator with
      | (.error e, tr2) => (.error e, s, tr ++ tr2)
      | (.ok ts, tr2) =>
        (.ok ts.name,
          ⟨s.experiment_resource_name, s.run_name_to_run_resource_name,
            dictInsert s.run_tag_name_to_time_series_name (run_name, tag_name) ts.name,
            s.uuid_counter⟩, tr ++ tr2)

/-- State of a `TimeSeriesResourceManager` instance: the fixed run parent and
the tag → time-series-proto cache (the full proto is cached, not just its
name). -/
structure TimeSeriesResourceManager where
  run_resource_id : String
  tag_to_time_series_proto : List (String × Resource)
deriving DecidableEq, Repr

/-- `TimeSeriesResourceManager.__init__`. -/
def TimeSeriesResourceManager.mk0 (run_resource_id : String) :
    TimeSeriesResourceManager :=
  ⟨run_resource_id, []⟩

/-- `TimeSeriesResourceManager.get_or_create`: cache hit on `tag_name`
returns the cached proto with no remote call; cache miss runs the
create-or-get body (identical, line for line, to
`OnePlatformResourceManager._create_or_get_time_series`, see that
definition) under `self._run_resource_id`, and on success stores the
resulting proto under `tag_name`.  Errors propagate and skip the cache
write. -/
def TimeSeriesResourceManager.get_or_create
    (api : TensorboardServiceApi) (self : TimeSeriesResourceManager)
    (tag_name : String) (time_series_resource_creator : Unit → Resource) :
    Except ResolveError Resource × TimeSeriesResourceManager × List ApiCall :=
  match dictLookup self.tag_to_time_series_proto tag_name with
  | some ts => (.ok ts, self, [])
  | none =>
    match OnePlatformResourceManager.create_or_get_time_series api
        self.run_resource_id tag_name time_series_resource_creator with
    | (.error e, tr) => (.error e, self, tr)
    | (.ok ts, tr) =>
      (.ok ts,
        ⟨self.run_resource_id, dictInsert self.tag_to_time_series_proto tag_name ts⟩,
        tr)

/-- Convenience: the state change `_create_or_get_run_resource` makes on its
own (the only mutation is consuming one uuid token). -/
def bumpUuid (s : OnePlatformResourceManager) : OnePlatformResourceManager :=
  ⟨s.experiment_resource_name, s.run_name_to_run_resource_name,
    s.run_tag_name_to_time_series_name, s.uuid_counter + 1⟩

/-- The source's conflict-dispatch condition, as a predicate on the raised
error: the fallback is taken exactly for `exceptions.InvalidArgument` whose
message contains `"already exist"`. -/
def isConflictSignal : ApiError → Bool
  | .invalidArgument msg => containsAlreadyExist msg
  | .other _ _ => false

/-- Does this recorded call carry the exact display-name equality filter for
`name`?  In the source the only list method invoked with a `filter=` argument
is `list_tensorboard_time_series`; `list_tensorboard_runs` is invoked with
`parent=` only, so a run-level list call never carries a filter. -/
def ApiCall.carriesDisplayNameEqFilter (name : String) : ApiCall → Bool
  | .list_tensorboard_time_series _ f => f = displayNameFilter name
  | _ => false

/-- A service stub whose create calls always fail with a name conflict and
whose list calls return nothing (the eventually-consistent
"service says duplicate, list sees nothing" scenario). -/
def conflictEmptyListApi : TensorboardServiceApi :=
  ⟨fun _ _ _ => .error (.invalidArgument "Run run-a already exists"),
   fun _ => [],
   fun _ _ => .error (.invalidArgument "TimeSeries loss already exists"),
   fun _ _ => []⟩

/-- A service stub whose create calls fail with a name conflict and whose
list calls return two resources carrying the requested display name
(a pre-existing out-of-band duplicate). -/
def dupApi : TensorboardServiceApi :=
  ⟨fun _ _ _ => .error (.invalidArgument "Run run-a already exists"),
   fun _ => [⟨"runs/1", "run-a"⟩, ⟨"runs/2", "run-a"⟩],
   fun _ _ => .error (.invalidArgument "TimeSeries loss already exists"),
   fun _ _ => [⟨"ts/1", "loss"⟩, ⟨"ts/2", "loss"⟩]⟩

/-- A service stub whose create calls fail with a name conflict and whose
list calls return exactly one resource carrying the requested display name
(the lost-race scenario). -/
def singleApi : TensorboardServiceApi :=
  ⟨fun _ _ _ => .error (.invalidArgument "Run run-a already exists"),
   fun _ => [⟨"runs/7", "run-a"⟩],
   fun _ _ => .error (.invalidArgument "TimeSeries loss already exists"),
   fun _ _ => [⟨"ts/7", "loss"⟩]⟩

/-- A service stub whose create calls always succeed (the common non-racing
path). -/
def okApi : TensorboardServiceApi :=
  ⟨fun _ _ i => .ok ⟨"runs/created-" ++ i, "run-a"⟩,
   fun _ => [],
   fun p _ => .ok ⟨p ++ "/ts/created", "loss"⟩,
   fun _ _ => []⟩

/-- A service stub whose create calls fail with a non-`InvalidArgument`
service error (permission denied). -/
def otherErrApi : TensorboardServiceApi :=
  ⟨fun _ _ _ => .error (.other "PermissionDenied" "caller lacks permission"),
   fun _ => [],
   fun _ _ => .error (.other "PermissionDenied" "caller lacks permission"),
   fun _ _ => []⟩

/-- A service stub where run creation succeeds but time-series creation
fails with a conflict the empty list cannot resolve (run step succeeds,
time-series step fails). -/
def mixedApi : TensorboardServiceApi :=
  ⟨fun _ _ i => .ok ⟨"runs/created-" ++ i, "run-a"⟩,
   fun _ => [],
   fun _ _ => .error (.invalidArgument "TimeSeries loss already exists"),
   fun _ _ => []⟩

/-- A fresh draft factory (`TensorboardTimeSeries()` with no name). -/
def plainCreator : Unit → Resource := fun _ => ⟨"", ""⟩

/-! ## Helper lemmas -/

theorem dictLookup_insert_self {α β : Type} [DecidableEq α] (d : List (α × β))
    (k : α) (v : β) (h : dictLookup d k = none) :
    dictLookup (dictInsert d k v) k = some v := by
  induction d with
  | nil => simp [dictInsert, dictLookup]
  | cons p rest ih =>
    obtain ⟨a, b⟩ := p
    by_cases hk : a = k
    · simp [dictLookup, hk] at h
    · simp only [dictInsert, List.cons_append, dictLookup, if_neg hk] at h ⊢
      exact ih h

/-- Scanning a list whose prefix has no matching display name finds the first
match. -/
theorem runLoop_first_match (n : String) (r : Resource) (l2 : List Resource)
    (hr : r.display_name = n) :
    ∀ (l1 : List Resource) (cur : Resource), (∀ x ∈ l1, x.display_name ≠ n) →
      runLoop cur n (l1 ++ r :: l2) = r := by
  intro l1
  induction l1 with
  | nil => intro cur _; simp [runLoop, hr]
  | cons x xs ih =>
    intro cur hx
    have hxd : x.display_name ≠ n := hx x (List.mem_cons_self _ _)
    simp only [List.cons_append, runLoop, if_neg hxd]
    exact ih x (fun y hy => hx y (List.mem_cons_of_mem _ hy))

theorem tsLoop_nil : tsLoop 0 none [] = (0, none) := rfl

theorem tsLoop_one (t : Resource) : tsLoop 0 none [t] = (1, some t) := rfl

theorem tsLoop_many (t1 t2 : Resource) (rest : List Resource) :
    tsLoop 0 none (t1 :: t2 :: rest) = (2, some t1) := rfl

/-- `_create_or_get_run_resource`, create-success branch. -/
theorem cogr_create_ok (api : TensorboardServiceApi)
    (s : OnePlatformResourceManager) (n : String) (r : Resource)
    (h : api.create_tensorboard_run s.experiment_resource_name ⟨"", n⟩
      (uuid4 s.uuid_counter) = .ok r) :
    OnePlatformResourceManager.create_or_get_run_resource api s n =
      (.ok r, bumpUuid s,
        [ApiCall.create_tensorboard_run s.experiment_resource_name n
          (uuid4 s.uuid_counter)]) := by
  simp [OnePlatformResourceManager.create_or_get_run_resource, h, bumpUuid]

/-- `_create_or_get_run_resource`, conflict branch, scan finds a matching
display name. -/
theorem cogr_conflict_found (api : TensorboardServiceApi)
    (s : OnePlatformResourceManager) (n : String) (msg : String)
    (h : api.create_tensorboard_run s.experiment_resource_name ⟨"", n⟩
      (uuid4 s.uuid_counter) = .error (.invalidArgument msg))
    (hc : containsAlreadyExist msg = true)
    (hf : (runLoop ⟨"", n⟩ n
      (api.list_tensorboard_runs s.experiment_resource_name)).display_name = n) :
    OnePlatformResourceManager.create_or_get_run_resource api s n =
      (.ok (runLoop ⟨"", n⟩ n (api.list_tensorboard_runs s.experiment_resource_name)),
        bumpUuid s,
        [ApiCall.create_tensorboard_run s.experiment_resource_name n
          (uuid4 s.uuid_counter),
         ApiCall.list_tensorboard_runs s.experiment_resource_name]) := by
  simp [OnePlatformResourceManager.create_or_get_run_resource, h, hc, hf, bumpUuid]

/-- `_create_or_get_run_resource`, conflict branch, scan ends without a
matching display name: raises `ExistingResourceNotFoundError`. -/
theorem cogr_conflict_not_found (api : TensorboardServiceApi)
    (s : OnePlatformResourceManager) (n : String) (msg : String)
    (h : api.create_tensorboard_run s.experiment_resource_name ⟨"", n⟩
      (uuid4 s.uuid_counter) = .error (.invalidArgument msg))
    (hc : containsAlreadyExist msg = true)
    (hf : (runLoop ⟨"", n⟩ n
      (api.list_tensorboard_runs s.experiment_resource_name)).display_name ≠ n) :
    OnePlatformResourceManager.create_or_get_run_resource api s n =
      (.error (.existingResourceNotFound
        ("Run with name " ++ n ++ " already exists but is not resource list.")),
        bumpUuid s,
        [ApiCall.create_tensorboard_run s.experiment_resource_name n
          (uuid4 s.uuid_counter),
         ApiCall.list_tensorboard_runs s.experiment_resource_name]) := by
  simp [OnePlatformResourceManager.create_or_get_run_resource, h, hc, hf, bumpUuid]

/-- `_create_or_get_run_resource`, non-conflict error branch: re-raises. -/
theorem cogr_create_other (api : TensorboardServiceApi)
    (s : OnePlatformResourceManager) (n : String) (e : ApiError)
    (h : api.create_tensorboard_run s.experiment_resource_name ⟨"", n⟩
      (uuid4 s.uuid_counter) = .error e)
    (he : isConflictSignal e = false) :
    OnePlatformResourceManager.create_or_get_run_resource api s n =
      (.error (.apiError e), bumpUuid s,
        [ApiCall.create_tensorboard_run s.experiment_resource_name n
          (uuid4 s.uuid_counter)]) := by
  cases e with
  | invalidArgument m =>
    simp only [isConflictSignal] at he
    simp [OnePlatformResourceManager.create_or_get_run_resource, h, he, bumpUuid]
  | other k m =>
    simp [OnePlatformResourceManager.create_or_get_run_resource, h, bumpUuid]

/-- The only state change `_create_or_get_run_resource` makes is consuming a
uuid token. -/
theorem cogr_state (api : TensorboardServiceApi) (s : OnePlatformResourceManager)
    (n : String) :
    (OnePlatformResourceManager.create_or_get_run_resource api s n).2.1 =
      bumpUuid s := by
  simp only [OnePlatformResourceManager.create_or_get_run_resource]
  repeat' (split <;> try rfl)

/-- Every remote call `_create_or_get_run_resource` issues is a run-level
call. -/
theorem cogr_calls_run (api : TensorboardServiceApi)
    (s : OnePlatformResourceManager) (n : String) :
    ∀ c ∈ (OnePlatformResourceManager.create_or_get_run_resource api s n).2.2,
      c.isRunCall = true := by
  simp only [OnePlatformResourceManager.create_or_get_run_resource]
  repeat' split
  all_goals simp [ApiCall.isRunCall]

/-- `get_run_resource_name`, cache-hit branch: no remote call, state
unchanged. -/
theorem grn_hit (api : TensorboardServiceApi) (s : OnePlatformResourceManager)
    (n : String) (v : String)
    (h : dictLookup s.run_name_to_run_resource_name n = some v) :
    OnePlatformResourceManager.get_run_resource_name api s n = (.ok v, s, []) := by
  simp [OnePlatformResourceManager.get_run_resource_name, h]

/-- `get_run_resource_name`, cache-miss branch, create-or-get succeeded:
caches `tb_run.name` and returns it. -/
theorem grn_miss_ok (api : TensorboardServiceApi) (s : OnePlatformResourceManager)
    (n : String) (r : Resource) (s1 : OnePlatformResourceManager) (tr : List ApiCall)
    (h : dictLookup s.run_name_to_run_resource_name n = none)
    (hc : OnePlatformResourceManager.create_or_get_run_resource api s n =
      (.ok r, s1, tr)) :
    OnePlatformResourceManager.get_run_resource_name api s n =
      (.ok r.name,
        ⟨s1.experiment_resource_name,
          dictInsert s1.run_name_to_run_resource_name n r.name,
          s1.run_tag_name_to_time_series_name, s1.uuid_counter⟩, tr) := by
  simp [OnePlatformResourceManager.get_run_resource_name, h, hc]

/-- `get_run_resource_name`, cache-miss branch, create-or-get raised:
propagates the error, no cache write. -/
theorem grn_miss_err (api : TensorboardServiceApi) (s : OnePlatformResourceManager)
    (n : String) (e : ResolveError) (s1 : OnePlatformResourceManager)
    (tr : List ApiCall)
    (h : dictLookup s.run_name_to_run_resource_name n = none)
    (hc : OnePlatformResourceManager.create_or_get_run_resource api s n =
      (.error e, s1, tr)) :
    OnePlatformResourceManager.get_run_resource_name api s n = (.error e, s1, tr) := by
  simp [OnePlatformResourceManager.get_run_resource_name, h, hc]

/-- `get_run_resource_name` never touches the time-series cache. -/
theorem grn_preserves_ts_map (api : TensorboardServiceApi)
    (s : OnePlatformResourceManager) (n : String) :
    (OnePlatformResourceManager.get_run_resource_name api s n).2.1.run_tag_name_to_time_series_name =
      s.run_tag_name_to_time_series_name := by
  unfold OnePlatformResourceManager.get_run_resource_name
  split
  · rfl
  · split
    · next r s1 tr heq =>
      have hst := cogr_state api s n
      rw [heq] at hst
      have hs1 : s1 = bumpUuid s := hst
      simp [hs1, bumpUuid]
    · next e s1 tr heq =>
      have hst := cogr_state api s n
      rw [heq] at hst
      have hs1 : s1 = bumpUuid s := hst
      simp [hs1, bumpUuid]

/-- On a failed `get_run_resource_name` the run cache is unchanged. -/
theorem grn_err_run_map (api : TensorboardServiceApi)
    (s : OnePlatformResourceManager) (n : String) (e : ResolveError)
    (s1 : OnePlatformResourceManager) (tr : List ApiCall)
    (h : OnePlatformResourceManager.get_run_resource_name api s n =
      (.error e, s1, tr)) :
    s1.run_name_to_run_resource_name = s.run_name_to_run_resource_name := by
  unfold OnePlatformResourceManager.get_run_resource_name at h
  revert h
  split
  · intro h; cases h
  · split
    · next r s2 tr2 heq => intro h; cases h
    · next e2 s2 tr2 heq =>
      intro h
      have hst := cogr_state api s n
      rw [heq] at hst
      have hs2 : s2 = bumpUuid s := hst
      cases h
      simp [hs2, bumpUuid]

/-- On a successful `get_run_resource_name` the returned value is in the run
cache of the returned state. -/
theorem grn_ok_cached (api : TensorboardServiceApi)
    (s : OnePlatformResourceManager) (n : String) (v : String)
    (s1 : OnePlatformResourceManager) (tr : List ApiCall)
    (h : OnePlatformResourceManager.get_run_resource_name api s n =
      (.ok v, s1, tr)) :
    dictLookup s1.run_name_to_run_resource_name n = some v := by
  unfold OnePlatformResourceManager.get_run_resource_name at h
  revert h
  split
  · next v0 hl =>
    intro h
    cases h
    exact hl
  · next hl =>
    split
    · next r s2 tr2 heq =>
      intro h
      have hst := cogr_state api s n
      rw [heq] at hst
      have hs2 : s2 = bumpUuid s := hst
      cases h
      have hmap : s2.run_name_to_run_resource_name = s.run_name_to_run_resource_name := by
        simp [hs2, bumpUuid]
      simp only [dictLookup, hmap]
      exact dictLookup_insert_self _ _ _ hl
    · next e2 s2 tr2 heq => intro h; cases h

/-- Resolving a run name a second time after a success is a pure cache hit:
same value, same state, no remote call. -/
theorem grn_second (api : TensorboardServiceApi)
    (s : OnePlatformResourceManager) (n : String) (v : String)
    (s1 : OnePlatformResourceManager) (tr : List ApiCall)
    (h : OnePlatformResourceManager.get_run_resource_name api s n =
      (.ok v, s1, tr)) :
    OnePlatformResourceManager.get_run_resource_name api s1 n = (.ok v, s1, []) :=
  grn_hit api s1 n v (grn_ok_cached api s n v s1 tr h)

/-- `_create_or_get_time_series`, create-success branch. -/
theorem cogts_create_ok (api : TensorboardServiceApi) (p tag : String)
    (f : Unit → Resource) (r : Resource)
    (h : api.create_tensorboard_time_series p ⟨(f ()).name, tag⟩ = .ok r) :
    OnePlatformResourceManager.create_or_get_time_series api p tag f =
      (.ok r, [ApiCall.create_tensorboard_time_series p tag]) := by
  simp [OnePlatformResourceManager.create_or_get_time_series, h]

/-- `_create_or_get_time_series`, conflict branch, filtered list empty:
raises `ExistingResourceNotFoundError`. -/
theorem cogts_conflict_nil (api : TensorboardServiceApi) (p tag : String)
    (f : Unit → Resource) (msg : String)
    (h : api.create_tensorboard_time_series p ⟨(f ()).name, tag⟩ =
      .error (.invalidArgument msg))
    (hc : containsAlreadyExist msg = true)
    (hl : api.list_tensorboard_time_series p (displayNameFilter tag) = []) :
    OnePlatformResourceManager.create_or_get_time_series api p tag f =
      (.error (.existingResourceNotFound
        ("Could not find time series resource with display name: " ++ tag)),
        [ApiCall.create_tensorboard_time_series p tag,
         ApiCall.list_tensorboard_time_series p (displayNameFilter tag)]) := by
  simp [OnePlatformResourceManager.create_or_get_time_series, h, hc, hl, tsLoop]

/-- `_create_or_get_time_series`, conflict branch, filtered list holding
exactly one resource: returns it. -/
theorem cogts_conflict_one (api : TensorboardServiceApi) (p tag : String)
    (f : Unit → Resource) (msg : String) (t : Resource)
    (h : api.create_tensorboard_time_series p ⟨(f ()).name, tag⟩ =
      .error (.invalidArgument msg))
    (hc : containsAlreadyExist msg = true)
    (hl : api.list_tensorboard_time_series p (displayNameFilter tag) = [t]) :
    OnePlatformResourceManager.create_or_get_time_series api p tag f =
      (.ok t,
        [ApiCall.create_tensorboard_time_series p tag,
         ApiCall.list_tensorboard_time_series p (displayNameFilter tag)]) := by
  simp [OnePlatformResourceManager.create_or_get_time_series, h, hc, hl, tsLoop]

/-- `_create_or_get_time_series`, conflict branch, filtered list holding two
or more resources: raises `ValueError`. -/
theorem cogts_conflict_many (api : TensorboardServiceApi) (p tag : String)
    (f : Unit → Resource) (msg : String) (t1 t2 : Resource) (rest : List Resource)
    (h : api.create_tensorboard_time_series p ⟨(f ()).name, tag⟩ =
      .error (.invalidArgument msg))
    (hc : containsAlreadyExist msg = true)
    (hl : api.list_tensorboard_time_series p (displayNameFilter tag) =
      t1 :: t2 :: rest) :
    OnePlatformResourceManager.create_or_get_time_series api p tag f =
      (.error (.valueError
        ("More than one time series resource found with display_name: " ++ tag)),
        [ApiCall.create_tensorboard_time_series p tag,
         ApiCall.list_tensorboard_time_series p (displayNameFilter tag)]) := by
  simp [OnePlatformResourceManager.create_or_get_time_series, h, hc, hl, tsLoop]

/-- `_create_or_get_time_series`, non-conflict error branch: re-raises. -/
theorem cogts_create_other (api : TensorboardServiceApi) (p tag : String)
    (f : Unit → Resource) (e : ApiError)
    (h : api.create_tensorboard_time_series p ⟨(f ()).name, tag⟩ = .error e)
    (he : isConflictSignal e = false) :
    OnePlatformResourceManager.create_or_get_time_series api p tag f =
      (.error (.apiError e), [ApiCall.create_tensorboard_time_series p tag]) := by
  cases e with
  | invalidArgument m =>
    simp only [isConflictSignal] at he
    simp [OnePlatformResourceManager.create_or_get_time_series, h, he]
  | other k m =>
    simp [OnePlatformResourceManager.create_or_get_time_series, h]

/-- Every remote call `_create_or_get_time_series` issues is a
time-series-level call. -/
theorem cogts_calls_ts (api : TensorboardServiceApi) (p tag : String)
    (f : Unit → Resource) :
    ∀ c ∈ (OnePlatformResourceManager.create_or_get_time_series api p tag f).2,
      c.isTimeSeriesCall = true := by
  simp only [OnePlatformResourceManager.create_or_get_time_series]
  repeat' split
  all_goals simp [ApiCall.isTimeSeriesCall]

/-- A time-series-level call is never a run-level call. -/
theorem ts_call_not_run (c : ApiCall) (h : c.isTimeSeriesCall = true) :
    c.isRunCall = false := by
  cases c <;> simp_all [ApiCall.isTimeSeriesCall, ApiCall.isRunCall]

/-- `get_time_series_resource_name`, cache-hit branch. -/
theorem gts_hit (api : TensorboardServiceApi) (s : OnePlatformResourceManager)
    (rn tn : String) (f : Unit → Resource) (v : String)
    (h : dictLookup s.run_tag_name_to_time_series_name (rn, tn) = some v) :
    OnePlatformResourceManager.get_time_series_resource_name api s rn tn f =
      (.ok v, s, []) := by
  simp [OnePlatformResourceManager.get_time_series_resource_name, h]

/-- `get_time_series_resource_name`, cache miss, run step raised. -/
theorem gts_miss_run_err (api : TensorboardServiceApi)
    (s : OnePlatformResourceManager) (rn tn : String) (f : Unit → Resource)
    (e : ResolveError) (s1 : OnePlatformResourceManager) (tr : List ApiCall)
    (h : dictLookup s.run_tag_name_to_time_series_name (rn, tn) = none)
    (hr : OnePlatformResourceManager.get_run_resource_name api s rn =
      (.error e, s1, tr)) :
    OnePlatformResourceManager.get_time_series_resource_name api s rn tn f =
      (.error e, s1, tr) := by
  simp [OnePlatformResourceManager.get_time_series_resource_name, h, hr]

/-- `get_time_series_resource_name`, cache miss, run step succeeded,
time-series step raised: error propagates, run-step state kept. -/
theorem gts_miss_ts_err (api : TensorboardServiceApi)
    (s : OnePlatformResourceManager) (rn tn : String) (f : Unit → Resource)
    (rr : String) (s1 : OnePlatformResourceManager) (tr : List ApiCall)
    (e : ResolveError) (tr2 : List ApiCall)
    (h : dictLookup s.run_tag_name_to_time_series_name (rn, tn) = none)
    (hr : OnePlatformResourceManager.get_run_resource_name api s rn =
      (.ok rr, s1, tr))
    (ht : OnePlatformResourceManager.create_or_get_time_series api rr tn f =
      (.error e, tr2)) :
    OnePlatformResourceManager.get_time_series_resource_name api s rn tn f =
      (.error e, s1, tr ++ tr2) := by
  simp [OnePlatformResourceManager.get_time_series_resource_name, h, hr, ht]

/-- `get_time_series_resource_name`, cache miss, both steps succeeded:
returns the time-series name and caches it under `(run_name, tag_name)`. -/
theorem gts_miss_ok (api : TensorboardServiceApi)
    (s : OnePlatformResourceManager) (rn tn : String) (f : Unit → Resource)
    (rr : String) (s1 : OnePlatformResourceManager) (tr : List ApiCall)
    (ts : Resource) (tr2 : List ApiCall)
    (h : dictLookup s.run_tag_name_to_time_series_name (rn, tn) = none)
    (hr : OnePlatformResourceManager.get_run_resource_name api s rn =
      (.ok rr, s1, tr))
    (ht : OnePlatformResourceManager.create_or_get_time_series api rr tn f =
      (.ok ts, tr2)) :
    OnePlatformResourceManager.get_time_series_resource_name api s rn tn f =
      (.ok ts.name,
        ⟨s1.experiment_resource_name, s1.run_name_to_run_resource_name,
          dictInsert s1.run_tag_name_to_time_series_name (rn, tn) ts.name,
          s1.uuid_counter⟩, tr ++ tr2) := by
  simp [OnePlatformResourceManager.get_time_series_resource_name, h, hr, ht]

/-- `TimeSeriesResourceManager.get_or_create`, cache-hit branch. -/
theorem goc_hit (api : TensorboardServiceApi) (s : TimeSeriesResourceManager)
    (tn : String) (f : Unit → Resource) (ts : Resource)
    (h : dictLookup s.tag_to_time_series_proto tn = some ts) :
    TimeSeriesResourceManager.get_or_create api s tn f = (.ok ts, s, []) := by
  simp [TimeSeriesResourceManager.get_or_create, h]

/-- `TimeSeriesResourceManager.get_or_create`, cache miss, body raised:
error propagates, cache unchanged. -/
theorem goc_miss_err (api : TensorboardServiceApi) (s : TimeSeriesResourceManager)
    (tn : String) (f : Unit → Resource) (e : ResolveError) (tr : List ApiCall)
    (h : dictLookup s.tag_to_time_series_proto tn = none)
    (hb : OnePlatformResourceManager.create_or_get_time_series api
      s.run_resource_id tn f = (.error e, tr)) :
    TimeSeriesResourceManager.get_or_create api s tn f = (.error e, s, tr) := by
  simp [TimeSeriesResourceManager.get_or_create, h, hb]

/-- `TimeSeriesResourceManager.get_or_create`, cache miss, body succeeded:
returns the proto and caches it under `tag_name`. -/
theorem goc_miss_ok (api : TensorboardServiceApi) (s : TimeSeriesResourceManager)
    (tn : String) (f : Unit → Resource) (ts : Resource) (tr : List ApiCall)
    (h : dictLookup s.tag_to_time_series_proto tn = none)
    (hb : OnePlatformResourceManager.create_or_get_time_series api
      s.run_resource_id tn f = (.ok ts, tr)) :
    TimeSeriesResourceManager.get_or_create api s tn f =
      (.ok ts, ⟨s.run_resource_id, dictInsert s.tag_to_time_series_proto tn ts⟩, tr) := by
  simp [TimeSeriesResourceManager.get_or_create, h, hb]

/-- On the conflict path the time-series body's trace is exactly one create
followed by one filtered list, whatever the list returns. -/
theorem cogts_conflict_trace (api : TensorboardServiceApi) (p tag : String)
    (f : Unit → Resource) (msg : String)
    (h : api.create_tensorboard_time_series p ⟨(f ()).name, tag⟩ =
      .error (.invalidArgument msg))
    (hc : containsAlreadyExist msg = true) :
    (OnePlatformResourceManager.create_or_get_time_series api p tag f).2 =
      [ApiCall.create_tensorboard_time_series p tag,
       ApiCall.list_tensorboard_time_series p (displayNameFilter tag)] := by
  simp only [OnePlatformResourceManager.create_or_get_time_series, h, hc, if_true]
  repeat' (split <;> try rfl)

/-- On the conflict path the run resolver's trace is exactly one create
followed by one unfiltered list, whatever the list returns. -/
theorem cogr_conflict_trace (api : TensorboardServiceApi)
    (s : OnePlatformResourceManager) (n : String) (msg : String)
    (h : api.create_tensorboard_run s.experiment_resource_name ⟨"", n⟩
      (uuid4 s.uuid_counter) = .error (.invalidArgument msg))
    (hc : containsAlreadyExist msg = true) :
    (OnePlatformResourceManager.create_or_get_run_resource api s n).2.2 =
      [ApiCall.create_tensorboard_run s.experiment_resource_name n
        (uuid4 s.uuid_counter),
       ApiCall.list_tensorboard_runs s.experiment_resource_name] := by
  simp only [OnePlatformResourceManager.create_or_get_run_resource, h, hc, if_true]
  repeat' (split <;> try rfl)

/-- On a cache miss the run resolver's trace is the create-or-get trace. -/
theorem grn_miss_trace (api : TensorboardServiceApi)
    (s : OnePlatformResourceManager) (n : String)
    (h : dictLookup s.run_name_to_run_resource_name n = none) :
    (OnePlatformResourceManager.get_run_resource_name api s n).2.2 =
      (OnePlatformResourceManager.create_or_get_run_resource api s n).2.2 := by
  simp only [OnePlatformResourceManager.get_run_resource_name, h]
  split
  all_goals (rename_i heq; rw [heq])

/-- On a cache miss the manager's trace is the create-or-get body trace. -/
theorem goc_miss_trace (api : TensorboardServiceApi)
    (s : TimeSeriesResourceManager) (tn : String) (f : Unit → Resource)
    (h : dictLookup s.tag_to_time_series_proto tn = none) :
    (TimeSeriesResourceManager.get_or_create api s tn f).2.2 =
      (OnePlatformResourceManager.create_or_get_time_series api
        s.run_resource_id tn f).2 := by
  simp only [TimeSeriesResourceManager.get_or_create, h]
  split
  all_goals (rename_i heq; rw [heq])

/-- Every remote call `get_run_resource_name` issues is a run-level call. -/
theorem grn_calls_run (api : TensorboardServiceApi)
    (s : OnePlatformResourceManager) (n : String) :
    ∀ c ∈ (OnePlatformResourceManager.get_run_resource_name api s n).2.2,
      c.isRunCall = true := by
  unfold OnePlatformResourceManager.get_run_resource_name
  split
  · simp
  · split
    · next r s1 tr heq =>
      have := cogr_calls_run api s n
      rw [heq] at this
      exact this
    · next e s1 tr heq =>
      have := cogr_calls_run api s n
      rw [heq] at this
      exact this

/-- On a successful cache-missing two-level resolve, the `(run, tag)` entry
is present in the returned state's time-series cache. -/
theorem gts_ok_cached (api : TensorboardServiceApi)
    (s : OnePlatformResourceManager) (rn tn : String) (f : Unit → Resource)
    (v : String) (s1 : OnePlatformResourceManager) (tr : List ApiCall)
    (h : OnePlatformResourceManager.get_time_series_resource_name api s rn tn f =
      (.ok v, s1, tr)) :
    dictLookup s1.run_tag_name_to_time_series_name (rn, tn) = some v := by
  unfold OnePlatformResourceManager.get_time_series_resource_name at h
  revert h
  split
  · next v0 hl => intro h; cases h; exact hl
  · next hl =>
    split
    · next e s2 tr2 heq => intro h; cases h
    · next rr s2 tr2 heq =>
      split
      · next e tr3 heq2 => intro h; cases h
      · next ts tr3 heq2 =>
        intro h
        cases h
        have hts : s2.run_tag_name_to_time_series_name =
            s.run_tag_name_to_time_series_name := by
          have hpre := grn_preserves_ts_map api s rn
          rw [heq] at hpre
          exact hpre
        exact dictLookup_insert_self _ _ _ (by rw [hts]; exact hl)

/-- A failed two-level resolve leaves the whole time-series cache unchanged. -/
theorem gts_err_ts_map (api : TensorboardServiceApi)
    (s : OnePlatformResourceManager) (rn tn : String) (f : Unit → Resource)
    (e : ResolveError) (s1 : OnePlatformResourceManager) (tr : List ApiCall)
    (h : OnePlatformResourceManager.get_time_series_resource_name api s rn tn f =
      (.error e, s1, tr)) :
    s1.run_tag_name_to_time_series_name = s.run_tag_name_to_time_series_name := by
  unfold OnePlatformResourceManager.get_time_series_resource_name at h
  revert h
  split
  · next v0 hl => intro h; cases h
  · next hl =>
    split
    · next e2 s2 tr2 heq =>
      intro h
      cases h
      have hpre := grn_preserves_ts_map api s rn
      rw [heq] at hpre
      exact hpre
    · next rr s2 tr2 heq =>
      split
      · next e2 tr3 heq2 =>
        intro h
        cases h
        have hpre := grn_preserves_ts_map api s rn
        rw [heq] at hpre
        exact hpre
      · next ts tr3 heq2 => intro h; cases h

/-- A failed `get_or_create` leaves the manager's state unchanged. -/
theorem goc_err_state (api : TensorboardServiceApi)
    (s : TimeSeriesResourceManager) (tn : String) (f : Unit → Resource)
    (e : ResolveError) (s1 : TimeSeriesResourceManager) (tr : List ApiCall)
    (h : TimeSeriesResourceManager.get_or_create api s tn f = (.error e, s1, tr)) :
    s1 = s := by
  unfold TimeSeriesResourceManager.get_or_create at h
  revert h
  split
  · next ts hl => intro h; cases h
  · next hl =>
    split
    · next e2 tr2 heq => intro h; cases h; rfl
    · next ts tr2 heq => intro h; cases h

/-- On a cache-missing two-level resolve the trace is the run-resolution
trace followed by time-series-level calls only. -/
theorem gts_trace_decompose (api : TensorboardServiceApi)
    (s : OnePlatformResourceManager) (rn tn : String) (f : Unit → Resource)
    (h : dictLookup s.run_tag_name_to_time_series_name (rn, tn) = none) :
    ∃ trTS,
      (OnePlatformResourceManager.get_time_series_resource_name api s rn tn f).2.2 =
        (OnePlatformResourceManager.get_run_resource_name api s rn).2.2 ++ trTS ∧
      ∀ c ∈ trTS, c.isTimeSeriesCall = true := by
  simp only [OnePlatformResourceManager.get_time_series_resource_name, h]
  split
  · next e s2 tr2 heq =>
    refine ⟨[], ?_, by simp⟩
    rw [heq]
    simp
  · next rr s2 tr2 heq =>
    split
    · next e tr3 heq2 =>
      refine ⟨tr3, ?_, ?_⟩
      · rw [heq]
      · have := cogts_calls_ts api rr tn f
        rw [heq2] at this
        exact this
    · next ts tr3 heq2 =>
      refine ⟨tr3, ?_, ?_⟩
      · rw [heq]
      · have := cogts_calls_ts api rr tn f
        rw [heq2] at this
        exact this

/-- A successful cache-missing two-level resolve leaves the run name cached
in the returned state. -/
theorem gts_miss_ok_run_cached (api : TensorboardServiceApi)
    (s : OnePlatformResourceManager) (rn tn : String) (f : Unit → Resource)
    (v : String) (s1 : OnePlatformResourceManager) (tr : List ApiCall)
    (h : dictLookup s.run_tag_name_to_time_series_name (rn, tn) = none)
    (hr : OnePlatformResourceManager.get_time_series_resource_name api s rn tn f =
      (.ok v, s1, tr)) :
    (dictLookup s1.run_name_to_run_resource_name rn).isSome = true := by
  unfold OnePlatformResourceManager.get_time_series_resource_name at hr
  rw [h] at hr
  revert hr
  simp only []
  split
  · next e s2 tr2 heq => intro hr; cases hr
  · next rr s2 tr2 heq =>
    split
    · next e tr3 heq2 => intro hr; cases hr
    · next ts tr3 heq2 =>
      intro hr
      cases hr
      have hc := grn_ok_cached api s rn rr s2 tr2 heq
      simp [hc]

/-- Once the run name is cached, a two-level resolve issues no run-level
remote call. -/
theorem gts_after_run_cached (api : TensorboardServiceApi)
    (s : OnePlatformResourceManager) (rn tn : String) (f : Unit → Resource)
    (rr : String)
    (h : dictLookup s.run_name_to_run_resource_name rn = some rr) :
    ∀ c ∈ (OnePlatformResourceManager.get_time_series_resource_name api s rn tn f).2.2,
      c.isRunCall = false := by
  unfold OnePlatformResourceManager.get_time_series_resource_name
  split
  · simp
  · rw [grn_hit api s rn rr h]
    simp only []
    split
    · next e tr3 heq2 =>
      intro c hc
      simp only [List.nil_append] at hc
      have := cogts_calls_ts api rr tn f
      rw [heq2] at this
      exact ts_call_not_run c (this c hc)
    · next ts tr3 heq2 =>
      intro c hc
      simp only [List.nil_append] at hc
      have := cogts_calls_ts api rr tn f
      rw [heq2] at this
      exact ts_call_not_run c (this c hc)

/-! ## Claim theorems -/

/-- Claim C1.  The claim says every resolver raises
`ExistingResourceNotFoundError` when, after a name-conflict signal, the list
call yields zero resources with the requested display name, leaving no cache
entry.  The code violates this at the run level: with `create` failing with
an `InvalidArgument` whose message contains `"already exist"` and
`list_tensorboard_runs` returning the empty list, the `for` loop never runs,
the loop variable `tb_run` still holds the local draft (whose display name
trivially equals `run_name`), so no error is raised; the never-created draft
is returned and its empty `name` is cached under `"run-a"` — contradicting
the function's own docstring (`Raises: ExistingResourceNotFoundError: Run
name could not be found in resource list`).  The second conjunct shows the
time-series resolver behaves as the claim says at the analogous input:
empty filtered list raises `ExistingResourceNotFoundError` and the cache
stays empty. -/
theorem C1_zero_match_run_level_returns_uncreated_draft :
    OnePlatformResourceManager.get_run_resource_name conflictEmptyListApi
        (OnePlatformResourceManager.mk0 "exp1") "run-a" =
      (.ok "", ⟨"exp1", [("run-a", "")], [], 1⟩,
        [.create_tensorboard_run "exp1" "run-a" "uuid-0",
         .list_tensorboard_runs "exp1"]) ∧
    TimeSeriesResourceManager.get_or_create conflictEmptyListApi
        (TimeSeriesResourceManager.mk0 "runs/9") "loss" plainCreator =
      (.error (.existingResourceNotFound
        "Could not find time series resource with display name: loss"),
        ⟨"runs/9", []⟩,
        [.create_tensorboard_time_series "runs/9" "loss",
         .list_tensorboard_time_series "runs/9" (displayNameFilter "loss")]) :=
  ⟨rfl, rfl⟩

/-- Claim C2, counterexample.  With `create` failing with a name conflict
and the run list returning two resources whose display name is `"run-a"`,
the run-level resolver does not raise `ValueError`: it returns the first
candidate `"runs/1"` (and caches it), so the claim is false for the run
resolver. -/
theorem C2_counterexample_run_level_returns_first_of_two :
    OnePlatformResourceManager.get_run_resource_name dupApi
        (OnePlatformResourceManager.mk0 "exp1") "run-a" =
      (.ok "runs/1", ⟨"exp1", [("run-a", "runs/1")], [], 1⟩,
        [.create_tensorboard_run "exp1" "run-a" "uuid-0",
         .list_tensorboard_runs "exp1"]) :=
  rfl

/-- Claim C2, amended.  When the post-conflict list yields two or more
resources with the requested display name: the time-series resolvers (both
the two-level `get_time_series_resource_name` and the single-level
`get_or_create`) fail with `ValueError`; the run-level resolver instead
returns the resource name of the first listed match. -/
theorem C2_amended_two_or_more_matches :
    (∀ (api : TensorboardServiceApi) (s : OnePlatformResourceManager)
      (rn tn : String) (f : Unit → Resource) (rr : String)
      (s1 : OnePlatformResourceManager) (tr : List ApiCall) (msg : String)
      (t1 t2 : Resource) (rest : List Resource),
      dictLookup s.run_tag_name_to_time_series_name (rn, tn) = none →
      OnePlatformResourceManager.get_run_resource_name api s rn = (.ok rr, s1, tr) →
      api.create_tensorboard_time_series rr ⟨(f ()).name, tn⟩ =
        .error (.invalidArgument msg) →
      containsAlreadyExist msg = true →
      api.list_tensorboard_time_series rr (displayNameFilter tn) = t1 :: t2 :: rest →
      OnePlatformResourceManager.get_time_series_resource_name api s rn tn f =
        (.error (.valueError
          ("More than one time series resource found with display_name: " ++ tn)),
          s1,
          tr ++ [ApiCall.create_tensorboard_time_series rr tn,
                 ApiCall.list_tensorboard_time_series rr (displayNameFilter tn)])) ∧
    (∀ (api : TensorboardServiceApi) (s : TimeSeriesResourceManager)
      (tn : String) (f : Unit → Resource) (msg : String) (t1 t2 : Resource)
      (rest : List Resource),
      dictLookup s.tag_to_time_series_proto tn = none →
      api.create_tensorboard_time_series s.run_resource_id ⟨(f ()).name, tn⟩ =
        .error (.invalidArgument msg) →
      containsAlreadyExist msg = true →
      api.list_tensorboard_time_series s.run_resource_id (displayNameFilter tn) =
        t1 :: t2 :: rest →
      TimeSeriesResourceManager.get_or_create api s tn f =
        (.error (.valueError
          ("More than one time series resource found with display_name: " ++ tn)),
          s,
          [ApiCall.create_tensorboard_time_series s.run_resource_id tn,
           ApiCall.list_tensorboard_time_series s.run_resource_id
             (displayNameFilter tn)])) ∧
    (∀ (api : TensorboardServiceApi) (s : OnePlatformResourceManager)
      (n : String) (msg : String) (l1 : List Resource) (r : Resource)
      (l2 : List Resource),
      dictLookup s.run_name_to_run_resource_name n = none →
      api.create_tensorboard_run s.experiment_resource_name ⟨"", n⟩
        (uuid4 s.uuid_counter) = .error (.invalidArgument msg) →
      containsAlreadyExist msg = true →
      api.list_tensorboard_runs s.experiment_resource_name = l1 ++ r :: l2 →
      (∀ x ∈ l1, x.display_name ≠ n) →
      r.display_name = n →
      OnePlatformResourceManager.get_run_resource_name api s n =
        (.ok r.name,
          ⟨s.experiment_resource_name,
            dictInsert s.run_name_to_run_resource_name n r.name,
            s.run_tag_name_to_time_series_name, s.uuid_counter + 1⟩,
          [ApiCall.create_tensorboard_run s.experiment_resource_name n
            (uuid4 s.uuid_counter),
           ApiCall.list_tensorboard_runs s.experiment_resource_name])) := by
  refine ⟨?_, ?_, ?_⟩
  · intro api s rn tn f rr s1 tr msg t1 t2 rest hmiss hr hcr hc hl
    exact gts_miss_ts_err api s rn tn f rr s1 tr _ _ hmiss hr
      (cogts_conflict_many api rr tn f msg t1 t2 rest hcr hc hl)
  · intro api s tn f msg t1 t2 rest hmiss hcr hc hl
    exact goc_miss_err api s tn f _ _ hmiss
      (cogts_conflict_many api s.run_resource_id tn f msg t1 t2 rest hcr hc hl)
  · intro api s n msg l1 r l2 hmiss hcr hc hl hl1 hrd
    have hscan : runLoop ⟨"", n⟩ n
        (api.list_tensorboard_runs s.experiment_resource_name) = r := by
      rw [hl]
      exact runLoop_first_match n r l2 hrd l1 ⟨"", n⟩ hl1
    have hcogr := cogr_conflict_found api s n msg hcr hc (by rw [hscan]; exact hrd)
    rw [hscan] at hcogr
    have := grn_miss_ok api s n r (bumpUuid s) _ hmiss hcogr
    simpa [bumpUuid] using this

/-- Claim C2, witness: the amended theorem applied at concrete inputs — the
two time-series resolvers raise `ValueError` on a two-element list, the run
resolver returns the first of two matches. -/
theorem C2_amended_witness :
    OnePlatformResourceManager.get_time_series_resource_name dupApi
        (OnePlatformResourceManager.mk0 "exp1") "run-a" "loss" plainCreator =
      (.error (.valueError
        "More than one time series resource found with display_name: loss"),
        ⟨"exp1", [("run-a", "runs/1")], [], 1⟩,
        [.create_tensorboard_run "exp1" "run-a" "uuid-0",
         .list_tensorboard_runs "exp1",
         .create_tensorboard_time_series "runs/1" "loss",
         .list_tensorboard_time_series "runs/1" (displayNameFilter "loss")]) ∧
    TimeSeriesResourceManager.get_or_create dupApi
        (TimeSeriesResourceManager.mk0 "runs/9") "loss" plainCreator =
      (.error (.valueError
        "More than one time series resource found with display_name: loss"),
        ⟨"runs/9", []⟩,
        [.create_tensorboard_time_series "runs/9" "loss",
         .list_tensorboard_time_series "runs/9" (displayNameFilter "loss")]) ∧
    OnePlatformResourceManager.get_run_resource_name dupApi
        (OnePlatformResourceManager.mk0 "exp1") "run-a" =
      (.ok "runs/1", ⟨"exp1", [("run-a", "runs/1")], [], 1⟩,
        [.create_tensorboard_run "exp1" "run-a" "uuid-0",
         .list_tensorboard_runs "exp1"]) :=
  ⟨C2_amended_two_or_more_matches.1 dupApi (OnePlatformResourceManager.mk0 "exp1")
      "run-a" "loss" plainCreator "runs/1" ⟨"exp1", [("run-a", "runs/1")], [], 1⟩
      [.create_tensorboard_run "exp1" "run-a" "uuid-0",
       .list_tensorboard_runs "exp1"]
      "TimeSeries loss already exists" ⟨"ts/1", "loss"⟩ ⟨"ts/2", "loss"⟩ []
      rfl rfl rfl rfl rfl,
   C2_amended_two_or_more_matches.2.1 dupApi
      (TimeSeriesResourceManager.mk0 "runs/9") "loss" plainCreator
      "TimeSeries loss already exists" ⟨"ts/1", "loss"⟩ ⟨"ts/2", "loss"⟩ []
      rfl rfl rfl rfl,
   C2_amended_two_or_more_matches.2.2 dupApi
      (OnePlatformResourceManager.mk0 "exp1") "run-a"
      "Run run-a already exists" [] ⟨"runs/1", "run-a"⟩ [⟨"runs/2", "run-a"⟩]
      rfl rfl rfl rfl (by simp) rfl⟩

/-- On a cache miss with a successful run step the two-level trace is the
run trace followed by the time-series body trace. -/
theorem gts_miss_ok_trace (api : TensorboardServiceApi)
    (s : OnePlatformResourceManager) (rn tn : String) (f : Unit → Resource)
    (rr : String) (s1 : OnePlatformResourceManager) (tr : List ApiCall)
    (hmiss : dictLookup s.run_tag_name_to_time_series_name (rn, tn) = none)
    (hr : OnePlatformResourceManager.get_run_resource_name api s rn =
      (.ok rr, s1, tr)) :
    (OnePlatformResourceManager.get_time_series_resource_name api s rn tn f).2.2 =
      tr ++ (OnePlatformResourceManager.create_or_get_time_series api rr tn f).2 := by
  simp only [OnePlatformResourceManager.get_time_series_resource_name, hmiss]
  rw [hr]
  simp only []
  split
  all_goals (rename_i heq; rw [heq])

/-- Claim C4, counterexample.  After a name conflict the run-level resolver's
fallback call is the unfiltered `list_tensorboard_runs(parent)` — the source
passes no `filter=` argument — so the claim that every resolver's fallback
list call carries a `display_name = "<json-escaped-name>"` filter is false
for the run resolver. -/
theorem C4_counterexample_run_list_unfiltered :
    (OnePlatformResourceManager.get_run_resource_name dupApi
        (OnePlatformResourceManager.mk0 "exp1") "run-a").2.2 =
      [.create_tensorboard_run "exp1" "run-a" "uuid-0",
       .list_tensorboard_runs "exp1"] ∧
    ApiCall.carriesDisplayNameEqFilter "run-a"
      (ApiCall.list_tensorboard_runs "exp1") = false :=
  ⟨rfl, rfl⟩

/-- Claim C4, amended.  On a name-conflict signal the time-series resolvers'
fallback list call carries the exact filter
`display_name = "<json-escaped-tag>"`; the run-level resolver's fallback is
the unfiltered `list_tensorboard_runs(parent)` (it enumerates the parent and
scans display names client-side). -/
theorem C4_amended_fallback_list_calls :
    (∀ (api : TensorboardServiceApi) (s : OnePlatformResourceManager)
      (rn tn : String) (f : Unit → Resource) (rr : String)
      (s1 : OnePlatformResourceManager) (tr : List ApiCall) (msg : String),
      dictLookup s.run_tag_name_to_time_series_name (rn, tn) = none →
      OnePlatformResourceManager.get_run_resource_name api s rn = (.ok rr, s1, tr) →
      api.create_tensorboard_time_series rr ⟨(f ()).name, tn⟩ =
        .error (.invalidArgument msg) →
      containsAlreadyExist msg = true →
      (OnePlatformResourceManager.get_time_series_resource_name api s rn tn f).2.2 =
        tr ++ [ApiCall.create_tensorboard_time_series rr tn,
               ApiCall.list_tensorboard_time_series rr (displayNameFilter tn)] ∧
      ApiCall.carriesDisplayNameEqFilter tn
        (ApiCall.list_tensorboard_time_series rr (displayNameFilter tn)) = true) ∧
    (∀ (api : TensorboardServiceApi) (s : TimeSeriesResourceManager)
      (tn : String) (f : Unit → Resource) (msg : String),
      dictLookup s.tag_to_time_series_proto tn = none →
      api.create_tensorboard_time_series s.run_resource_id ⟨(f ()).name, tn⟩ =
        .error (.invalidArgument msg) →
      containsAlreadyExist msg = true →
      (TimeSeriesResourceManager.get_or_create api s tn f).2.2 =
        [ApiCall.create_tensorboard_time_series s.run_resource_id tn,
         ApiCall.list_tensorboard_time_series s.run_resource_id
           (displayNameFilter tn)] ∧
      ApiCall.carriesDisplayNameEqFilter tn
        (ApiCall.list_tensorboard_time_series s.run_resource_id
          (displayNameFilter tn)) = true) ∧
    (∀ (api : TensorboardServiceApi) (s : OnePlatformResourceManager)
      (n : String) (msg : String),
      dictLookup s.run_name_to_run_resource_name n = none →
      api.create_tensorboard_run s.experiment_resource_name ⟨"", n⟩
        (uuid4 s.uuid_counter) = .error (.invalidArgument msg) →
      containsAlreadyExist msg = true →
      (OnePlatformResourceManager.get_run_resource_name api s n).2.2 =
        [ApiCall.create_tensorboard_run s.experiment_resource_name n
          (uuid4 s.uuid_counter),
         ApiCall.list_tensorboard_runs s.experiment_resource_name] ∧
      ApiCall.carriesDisplayNameEqFilter n
        (ApiCall.list_tensorboard_runs s.experiment_resource_name) = false) := by
  refine ⟨?_, ?_, ?_⟩
  · intro api s rn tn f rr s1 tr msg hmiss hr hcr hc
    constructor
    · rw [gts_miss_ok_trace api s rn tn f rr s1 tr hmiss hr,
        cogts_conflict_trace api rr tn f msg hcr hc]
    · simp [ApiCall.carriesDisplayNameEqFilter]
  · intro api s tn f msg hmiss hcr hc
    constructor
    · rw [goc_miss_trace api s tn f hmiss,
        cogts_conflict_trace api s.run_resource_id tn f msg hcr hc]
    · simp [ApiCall.carriesDisplayNameEqFilter]
  · intro api s n msg hmiss hcr hc
    constructor
    · rw [grn_miss_trace api s n hmiss, cogr_conflict_trace api s n msg hcr hc]
    · rfl

/-- Claim C4, witness: the amended theorem applied at concrete inputs. -/
theorem C4_amended_witness :
    ((OnePlatformResourceManager.get_time_series_resource_name dupApi
        (OnePlatformResourceManager.mk0 "exp1") "run-a" "loss" plainCreator).2.2 =
      [ApiCall.create_tensorboard_run "exp1" "run-a" "uuid-0",
       ApiCall.list_tensorboard_runs "exp1"] ++
        [ApiCall.create_tensorboard_time_series "runs/1" "loss",
         ApiCall.list_tensorboard_time_series "runs/1" (displayNameFilter "loss")] ∧
      ApiCall.carriesDisplayNameEqFilter "loss"
        (ApiCall.list_tensorboard_time_series "runs/1"
          (displayNameFilter "loss")) = true) ∧
    ((TimeSeriesResourceManager.get_or_create dupApi
        (TimeSeriesResourceManager.mk0 "runs/9") "loss" plainCreator).2.2 =
      [ApiCall.create_tensorboard_time_series "runs/9" "loss",
       ApiCall.list_tensorboard_time_series "runs/9" (displayNameFilter "loss")] ∧
      ApiCall.carriesDisplayNameEqFilter "loss"
        (ApiCall.list_tensorboard_time_series "runs/9"
          (displayNameFilter "loss")) = true) ∧
    ((OnePlatformResourceManager.get_run_resource_name dupApi
        (OnePlatformResourceManager.mk0 "exp1") "run-a").2.2 =
      [ApiCall.create_tensorboard_run "exp1" "run-a" "uuid-0",
       ApiCall.list_tensorboard_runs "exp1"] ∧
      ApiCall.carriesDisplayNameEqFilter "run-a"
        (ApiCall.list_tensorboard_runs "exp1") = false) :=
  ⟨C4_amended_fallback_list_calls.1 dupApi (OnePlatformResourceManager.mk0 "exp1")
      "run-a" "loss" plainCreator "runs/1" ⟨"exp1", [("run-a", "runs/1")], [], 1⟩
      [.create_tensorboard_run "exp1" "run-a" "uuid-0",
       .list_tensorboard_runs "exp1"]
      "TimeSeries loss already exists" rfl rfl rfl rfl,
   C4_amended_fallback_list_calls.2.1 dupApi
      (TimeSeriesResourceManager.mk0 "runs/9") "loss" plainCreator
      "TimeSeries loss already exists" rfl rfl rfl,
   C4_amended_fallback_list_calls.2.2 dupApi
      (OnePlatformResourceManager.mk0 "exp1") "run-a"
      "Run run-a already exists" rfl rfl rfl⟩

/-- Claim C3.  For each resolver: once a logical name has been resolved
successfully, resolving it again on the resulting state returns the identical
identifier, leaves the state untouched, and issues zero remote calls (the
empty call trace) — even with a different draft factory. -/
theorem C3_memoization :
    (∀ (api : TensorboardServiceApi) (s : OnePlatformResourceManager)
      (n : String) (v : String) (s1 : OnePlatformResourceManager)
      (tr : List ApiCall),
      OnePlatformResourceManager.get_run_resource_name api s n = (.ok v, s1, tr) →
      OnePlatformResourceManager.get_run_resource_name api s1 n = (.ok v, s1, [])) ∧
    (∀ (api : TensorboardServiceApi) (s : OnePlatformResourceManager)
      (rn tn : String) (f : Unit → Resource) (v : String)
      (s1 : OnePlatformResourceManager) (tr : List ApiCall) (f2 : Unit → Resource),
      OnePlatformResourceManager.get_time_series_resource_name api s rn tn f =
        (.ok v, s1, tr) →
      OnePlatformResourceManager.get_time_series_resource_name api s1 rn tn f2 =
        (.ok v, s1, [])) ∧
    (∀ (api : TensorboardServiceApi) (s : TimeSeriesResourceManager)
      (tn : String) (f : Unit → Resource) (ts : Resource)
      (s1 : TimeSeriesResourceManager) (tr : List ApiCall) (f2 : Unit → Resource),
      TimeSeriesResourceManager.get_or_create api s tn f = (.ok ts, s1, tr) →
      TimeSeriesResourceManager.get_or_create api s1 tn f2 = (.ok ts, s1, [])) := by
  refine ⟨?_, ?_, ?_⟩
  · intro api s n v s1 tr h
    exact grn_second api s n v s1 tr h
  · intro api s rn tn f v s1 tr f2 h
    exact gts_hit api s1 rn tn f2 v (gts_ok_cached api s rn tn f v s1 tr h)
  · intro api s tn f ts s1 tr f2 h
    have hc : dictLookup s1.tag_to_time_series_proto tn = some ts := by
      unfold TimeSeriesResourceManager.get_or_create at h
      revert h
      split
      · next ts0 hl => intro h; cases h; exact hl
      · next hl =>
        split
        · next e tr2 heq => intro h; cases h
        · next ts2 tr2 heq =>
          intro h
          cases h
          exact dictLookup_insert_self _ _ _ hl
    exact goc_hit api s1 tn f2 ts hc

/-- Claim C3, witness: a run resolved through a successful create, a
two-level time series, and a manager time series each resolve a second time
from cache with no remote call. -/
theorem C3_memoization_witness :
    OnePlatformResourceManager.get_run_resource_name okApi
        ⟨"exp1", [("run-a", "runs/created-uuid-0")], [], 1⟩ "run-a" =
      (.ok "runs/created-uuid-0",
        ⟨"exp1", [("run-a", "runs/created-uuid-0")], [], 1⟩, []) ∧
    OnePlatformResourceManager.get_time_series_resource_name okApi
        ⟨"exp1", [("run-a", "runs/created-uuid-0")],
          [(("run-a", "loss"), "runs/created-uuid-0/ts/created")], 1⟩
        "run-a" "loss" plainCreator =
      (.ok "runs/created-uuid-0/ts/created",
        ⟨"exp1", [("run-a", "runs/created-uuid-0")],
          [(("run-a", "loss"), "runs/created-uuid-0/ts/created")], 1⟩, []) ∧
    TimeSeriesResourceManager.get_or_create okApi
        ⟨"runs/9", [("loss", ⟨"runs/9/ts/created", "loss"⟩)]⟩ "loss" plainCreator =
      (.ok ⟨"runs/9/ts/created", "loss"⟩,
        ⟨"runs/9", [("loss", ⟨"runs/9/ts/created", "loss"⟩)]⟩, []) :=
  ⟨C3_memoization.1 okApi (OnePlatformResourceManager.mk0 "exp1") "run-a"
      "runs/created-uuid-0" ⟨"exp1", [("run-a", "runs/created-uuid-0")], [], 1⟩
      [.create_tensorboard_run "exp1" "run-a" "uuid-0"] rfl,
   C3_memoization.2.1 okApi (OnePlatformResourceManager.mk0 "exp1") "run-a" "loss"
      plainCreator "runs/created-uuid-0/ts/created"
      ⟨"exp1", [("run-a", "runs/created-uuid-0")],
        [(("run-a", "loss"), "runs/created-uuid-0/ts/created")], 1⟩
      [.create_tensorboard_run "exp1" "run-a" "uuid-0",
       .create_tensorboard_time_series "runs/created-uuid-0" "loss"]
      plainCreator rfl,
   C3_memoization.2.2 okApi (TimeSeriesResourceManager.mk0 "runs/9") "loss"
      plainCreator ⟨"runs/9/ts/created", "loss"⟩
      ⟨"runs/9", [("loss", ⟨"runs/9/ts/created", "loss"⟩)]⟩
      [.create_tensorboard_time_series "runs/9" "loss"] plainCreator rfl⟩

/-- Claim C5.  When the post-conflict list yields exactly one resource whose
display name equals the requested name, each resolver returns that
resource's identifier without raising and inserts it into its cache:
two-level time series, single-level time series, and run level (for the run
resolver, "exactly one" means exactly one matching display name in the
unfiltered enumeration). -/
theorem C5_exactly_one_match :
    (∀ (api : TensorboardServiceApi) (s : OnePlatformResourceManager)
      (rn tn : String) (f : Unit → Resource) (rr : String)
      (s1 : OnePlatformResourceManager) (tr : List ApiCall) (msg : String)
      (t : Resource),
      dictLookup s.run_tag_name_to_time_series_name (rn, tn) = none →
      OnePlatformResourceManager.get_run_resource_name api s rn = (.ok rr, s1, tr) →
      api.create_tensorboard_time_series rr ⟨(f ()).name, tn⟩ =
        .error (.invalidArgument msg) →
      containsAlreadyExist msg = true →
      api.list_tensorboard_time_series rr (displayNameFilter tn) = [t] →
      t.display_name = tn →
      OnePlatformResourceManager.get_time_series_resource_name api s rn tn f =
        (.ok t.name,
          ⟨s1.experiment_resource_name, s1.run_name_to_run_resource_name,
            dictInsert s1.run_tag_name_to_time_series_name (rn, tn) t.name,
            s1.uuid_counter⟩,
          tr ++ [ApiCall.create_tensorboard_time_series rr tn,
                 ApiCall.list_tensorboard_time_series rr (displayNameFilter tn)])) ∧
    (∀ (api : TensorboardServiceApi) (s : TimeSeriesResourceManager)
      (tn : String) (f : Unit → Resource) (msg : String) (t : Resource),
      dictLookup s.tag_to_time_series_proto tn = none →
      api.create_tensorboard_time_series s.run_resource_id ⟨(f ()).name, tn⟩ =
        .error (.invalidArgument msg) →
      containsAlreadyExist msg = true →
      api.list_tensorboard_time_series s.run_resource_id (displayNameFilter tn) =
        [t] →
      t.display_name = tn →
      TimeSeriesResourceManager.get_or_create api s tn f =
        (.ok t, ⟨s.run_resource_id, dictInsert s.tag_to_time_series_proto tn t⟩,
          [ApiCall.create_tensorboard_time_series s.run_resource_id tn,
           ApiCall.list_tensorboard_time_series s.run_resource_id
             (displayNameFilter tn)])) ∧
    (∀ (api : TensorboardServiceApi) (s : OnePlatformResourceManager)
      (n : String) (msg : String) (l1 : List Resource) (r : Resource)
      (l2 : List Resource),
      dictLookup s.run_name_to_run_resource_name n = none →
      api.create_tensorboard_run s.experiment_resource_name ⟨"", n⟩
        (uuid4 s.uuid_counter) = .error (.invalidArgument msg) →
      containsAlreadyExist msg = true →
      api.list_tensorboard_runs s.experiment_resource_name = l1 ++ r :: l2 →
      (∀ x ∈ l1, x.display_name ≠ n) →
      r.display_name = n →
      (∀ x ∈ l2, x.display_name ≠ n) →
      OnePlatformResourceManager.get_run_resource_name api s n =
        (.ok r.name,
          ⟨s.experiment_resource_name,
            dictInsert s.run_name_to_run_resource_name n r.name,
            s.run_tag_name_to_time_series_name, s.uuid_counter + 1⟩,
          [ApiCall.create_tensorboard_run s.experiment_resource_name n
            (uuid4 s.uuid_counter),
           ApiCall.list_tensorboard_runs s.experiment_resource_name])) := by
  refine ⟨?_, ?_, ?_⟩
  · intro api s rn tn f rr s1 tr msg t hmiss hr hcr hc hl htd
    exact gts_miss_ok api s rn tn f rr s1 tr t _ hmiss hr
      (cogts_conflict_one api rr tn f msg t hcr hc hl)
  · intro api s tn f msg t hmiss hcr hc hl htd
    exact goc_miss_ok api s tn f t _ hmiss
      (cogts_conflict_one api s.run_resource_id tn f msg t hcr hc hl)
  · intro api s n msg l1 r l2 hmiss hcr hc hl hl1 hrd hl2
    have hscan : runLoop ⟨"", n⟩ n
        (api.list_tensorboard_runs s.experiment_resource_name) = r := by
      rw [hl]
      exact runLoop_first_match n r l2 hrd l1 ⟨"", n⟩ hl1
    have hcogr := cogr_conflict_found api s n msg hcr hc (by rw [hscan]; exact hrd)
    rw [hscan] at hcogr
    have := grn_miss_ok api s n r (bumpUuid s) _ hmiss hcogr
    simpa [bumpUuid] using this

/-- Claim C5, witness: the lost-race scenario at concrete inputs — one
matching resource listed, its identifier returned and cached, for all three
resolvers. -/
theorem C5_exactly_one_match_witness :
    OnePlatformResourceManager.get_time_series_resource_name singleApi
        (OnePlatformResourceManager.mk0 "exp1") "run-a" "loss" plainCreator =
      (.ok "ts/7",
        ⟨"exp1", [("run-a", "runs/7")], [(("run-a", "loss"), "ts/7")], 1⟩,
        [.create_tensorboard_run "exp1" "run-a" "uuid-0",
         .list_tensorboard_runs "exp1",
         .create_tensorboard_time_series "runs/7" "loss",
         .list_tensorboard_time_series "runs/7" (displayNameFilter "loss")]) ∧
    TimeSeriesResourceManager.get_or_create singleApi
        (TimeSeriesResourceManager.mk0 "runs/9") "loss" plainCreator =
      (.ok ⟨"ts/7", "loss"⟩, ⟨"runs/9", [("loss", ⟨"ts/7", "loss"⟩)]⟩,
        [.create_tensorboard_time_series "runs/9" "loss",
         .list_tensorboard_time_series "runs/9" (displayNameFilter "loss")]) ∧
    OnePlatformResourceManager.get_run_resource_name singleApi
        (OnePlatformResourceManager.mk0 "exp1") "run-a" =
      (.ok "runs/7", ⟨"exp1", [("run-a", "runs/7")], [], 1⟩,
        [.create_tensorboard_run "exp1" "run-a" "uuid-0",
         .list_tensorboard_runs "exp1"]) :=
  ⟨C5_exactly_one_match.1 singleApi (OnePlatformResourceManager.mk0 "exp1")
      "run-a" "loss" plainCreator "runs/7" ⟨"exp1", [("run-a", "runs/7")], [], 1⟩
      [.create_tensorboard_run "exp1" "run-a" "uuid-0",
       .list_tensorboard_runs "exp1"]
      "TimeSeries loss already exists" ⟨"ts/7", "loss"⟩
      rfl rfl rfl rfl rfl rfl,
   C5_exactly_one_match.2.1 singleApi (TimeSeriesResourceManager.mk0 "runs/9")
      "loss" plainCreator "TimeSeries loss already exists" ⟨"ts/7", "loss"⟩
      rfl rfl rfl rfl rfl,
   C5_exactly_one_match.2.2 singleApi (OnePlatformResourceManager.mk0 "exp1")
      "run-a" "Run run-a already exists" [] ⟨"runs/7", "run-a"⟩ []
      rfl rfl rfl rfl (by simp) rfl (by simp)⟩

/-- Claim C6.  A failed resolve leaves the resolver's own cache mapping for
the requested key unchanged — for the run resolver, the two-level
time-series resolver, and the single-level time-series manager. -/
theorem C6_failed_resolve_leaves_cache_unchanged :
    (∀ (api : TensorboardServiceApi) (s : OnePlatformResourceManager)
      (n : String) (e : ResolveError) (s1 : OnePlatformResourceManager)
      (tr : List ApiCall),
      OnePlatformResourceManager.get_run_resource_name api s n = (.error e, s1, tr) →
      dictLookup s1.run_name_to_run_resource_name n =
        dictLookup s.run_name_to_run_resource_name n) ∧
    (∀ (api : TensorboardServiceApi) (s : OnePlatformResourceManager)
      (rn tn : String) (f : Unit → Resource) (e : ResolveError)
      (s1 : OnePlatformResourceManager) (tr : List ApiCall),
      OnePlatformResourceManager.get_time_series_resource_name api s rn tn f =
        (.error e, s1, tr) →
      dictLookup s1.run_tag_name_to_time_series_name (rn, tn) =
        dictLookup s.run_tag_name_to_time_series_name (rn, tn)) ∧
    (∀ (api : TensorboardServiceApi) (s : TimeSeriesResourceManager)
      (tn : String) (f : Unit → Resource) (e : ResolveError)
      (s1 : TimeSeriesResourceManager) (tr : List ApiCall),
      TimeSeriesResourceManager.get_or_create api s tn f = (.error e, s1, tr) →
      dictLookup s1.tag_to_time_series_proto tn =
        dictLookup s.tag_to_time_series_proto tn) := by
  refine ⟨?_, ?_, ?_⟩
  · intro api s n e s1 tr h
    rw [grn_err_run_map api s n e s1 tr h]
  · intro api s rn tn f e s1 tr h
    rw [gts_err_ts_map api s rn tn f e s1 tr h]
  · intro api s tn f e s1 tr h
    rw [goc_err_state api s tn f e s1 tr h]

/-- Claim C6, witness: a permission-denied create fails each resolver and
the failed key's cache mapping is the same before and after. -/
theorem C6_failed_resolve_witness :
    dictLookup
        (⟨"exp1", [], [], 1⟩ : OnePlatformResourceManager).run_name_to_run_resource_name
        "run-a" =
      dictLookup
        (OnePlatformResourceManager.mk0 "exp1").run_name_to_run_resource_name
        "run-a" ∧
    dictLookup
        (⟨"exp1", [], [], 1⟩ : OnePlatformResourceManager).run_tag_name_to_time_series_name
        ("run-a", "loss") =
      dictLookup
        (OnePlatformResourceManager.mk0 "exp1").run_tag_name_to_time_series_name
        ("run-a", "loss") ∧
    dictLookup
        (TimeSeriesResourceManager.mk0 "runs/9").tag_to_time_series_proto "loss" =
      dictLookup
        (TimeSeriesResourceManager.mk0 "runs/9").tag_to_time_series_proto "loss" :=
  ⟨C6_failed_resolve_leaves_cache_unchanged.1 otherErrApi
      (OnePlatformResourceManager.mk0 "exp1") "run-a"
      (.apiError (.other "PermissionDenied" "caller lacks permission"))
      ⟨"exp1", [], [], 1⟩
      [.create_tensorboard_run "exp1" "run-a" "uuid-0"] rfl,
   C6_failed_resolve_leaves_cache_unchanged.2.1 otherErrApi
      (OnePlatformResourceManager.mk0 "exp1") "run-a" "loss" plainCreator
      (.apiError (.other "PermissionDenied" "caller lacks permission"))
      ⟨"exp1", [], [], 1⟩
      [.create_tensorboard_run "exp1" "run-a" "uuid-0"] rfl,
   C6_failed_resolve_leaves_cache_unchanged.2.2 otherErrApi
      (TimeSeriesResourceManager.mk0 "runs/9") "loss" plainCreator
      (.apiError (.other "PermissionDenied" "caller lacks permission"))
      (TimeSeriesResourceManager.mk0 "runs/9")
      [.create_tensorboard_time_series "runs/9" "loss"] rfl⟩

/-- Claim C7.  In two-level mode, a cache-missing successful resolve's trace
is the full run-resolution trace (all run-level calls) followed only by
time-series-level calls; afterwards the run name is cached, and any
subsequent resolve with the same run name (any tag) issues no run-level
remote call at all. -/
theorem C7_two_level_composition :
    ∀ (api : TensorboardServiceApi) (s : OnePlatformResourceManager)
      (rn t1 : String) (f1 : Unit → Resource) (v : String)
      (s1 : OnePlatformResourceManager) (tr1 : List ApiCall),
      dictLookup s.run_tag_name_to_time_series_name (rn, t1) = none →
      OnePlatformResourceManager.get_time_series_resource_name api s rn t1 f1 =
        (.ok v, s1, tr1) →
      (∃ trTS,
        tr1 = (OnePlatformResourceManager.get_run_resource_name api s rn).2.2 ++ trTS ∧
        ∀ c ∈ trTS, c.isTimeSeriesCall = true) ∧
      (∀ c ∈ (OnePlatformResourceManager.get_run_resource_name api s rn).2.2,
        c.isRunCall = true) ∧
      (dictLookup s1.run_name_to_run_resource_name rn).isSome = true ∧
      (∀ (t2 : String) (f2 : Unit → Resource) (c : ApiCall),
        c ∈ (OnePlatformResourceManager.get_time_series_resource_name
          api s1 rn t2 f2).2.2 → c.isRunCall = false) := by
  intro api s rn t1 f1 v s1 tr1 hmiss h
  have hcache := gts_miss_ok_run_cached api s rn t1 f1 v s1 tr1 hmiss h
  refine ⟨?_, grn_calls_run api s rn, hcache, ?_⟩
  · have hd := gts_trace_decompose api s rn t1 f1 hmiss
    rw [h] at hd
    exact hd
  · intro t2 f2 c hc
    obtain ⟨rr, hrr⟩ := Option.isSome_iff_exists.mp hcache
    exact gts_after_run_cached api s1 rn t2 f2 rr hrr c hc

/-- Claim C7, witness: a fresh two-level resolve against a create-succeeding
service, instantiating the composition theorem. -/
theorem C7_two_level_composition_witness :
    (∃ trTS,
      [ApiCall.create_tensorboard_run "exp1" "run-a" "uuid-0",
       ApiCall.create_tensorboard_time_series "runs/created-uuid-0" "loss"] =
        (OnePlatformResourceManager.get_run_resource_name okApi
          (OnePlatformResourceManager.mk0 "exp1") "run-a").2.2 ++ trTS ∧
      ∀ c ∈ trTS, c.isTimeSeriesCall = true) ∧
    (∀ c ∈ (OnePlatformResourceManager.get_run_resource_name okApi
        (OnePlatformResourceManager.mk0 "exp1") "run-a").2.2,
      c.isRunCall = true) ∧
    (dictLookup
      (⟨"exp1", [("run-a", "runs/created-uuid-0")],
        [(("run-a", "loss"), "runs/created-uuid-0/ts/created")],
        1⟩ : OnePlatformResourceManager).run_name_to_run_resource_name
      "run-a").isSome = true ∧
    (∀ (t2 : String) (f2 : Unit → Resource) (c : ApiCall),
      c ∈ (OnePlatformResourceManager.get_time_series_resource_name okApi
        ⟨"exp1", [("run-a", "runs/created-uuid-0")],
          [(("run-a", "loss"), "runs/created-uuid-0/ts/created")], 1⟩
        "run-a" t2 f2).2.2 → c.isRunCall = false) :=
  C7_two_level_composition okApi (OnePlatformResourceManager.mk0 "exp1")
    "run-a" "loss" plainCreator "runs/created-uuid-0/ts/created"
    ⟨"exp1", [("run-a", "runs/created-uuid-0")],
      [(("run-a", "loss"), "runs/created-uuid-0/ts/created")], 1⟩
    [.create_tensorboard_run "exp1" "run-a" "uuid-0",
     .create_tensorboard_time_series "runs/created-uuid-0" "loss"]
    rfl rfl

/-- Claim C9.  For each resolver, when the remote create call fails with
error `e`, the list-based conflict fallback is taken if and only if `e` is
`InvalidArgument` with `"already exist"` in its message (`isConflictSignal`);
every other error — including any other `InvalidArgument` — propagates
unchanged as the resolve result.  Since the dispatch inspects only the error
class and that substring, an `InvalidArgument` for genuinely malformed input
whose message happens to contain `"already exist"` is routed into the
fallback. -/
theorem C9_conflict_dispatch :
    (∀ (api : TensorboardServiceApi) (s : OnePlatformResourceManager)
      (n : String) (e : ApiError),
      dictLookup s.run_name_to_run_resource_name n = none →
      api.create_tensorboard_run s.experiment_resource_name ⟨"", n⟩
        (uuid4 s.uuid_counter) = .error e →
      ((OnePlatformResourceManager.get_run_resource_name api s n).2.2.any
        ApiCall.isListCall = isConflictSignal e ∧
       (isConflictSignal e = false →
        OnePlatformResourceManager.get_run_resource_name api s n =
          (.error (.apiError e), bumpUuid s,
            [ApiCall.create_tensorboard_run s.experiment_resource_name n
              (uuid4 s.uuid_counter)])))) ∧
    (∀ (api : TensorboardServiceApi) (p tag : String) (f : Unit → Resource)
      (e : ApiError),
      api.create_tensorboard_time_series p ⟨(f ()).name, tag⟩ = .error e →
      ((OnePlatformResourceManager.create_or_get_time_series api p tag f).2.any
        ApiCall.isListCall = isConflictSignal e ∧
       (isConflictSignal e = false →
        OnePlatformResourceManager.create_or_get_time_series api p tag f =
          (.error (.apiError e),
            [ApiCall.create_tensorboard_time_series p tag])))) ∧
    (∀ (api : TensorboardServiceApi) (s : TimeSeriesResourceManager)
      (tn : String) (f : Unit → Resource) (e : ApiError),
      dictLookup s.tag_to_time_series_proto tn = none →
      api.create_tensorboard_time_series s.run_resource_id ⟨(f ()).name, tn⟩ =
        .error e →
      ((TimeSeriesResourceManager.get_or_create api s tn f).2.2.any
        ApiCall.isListCall = isConflictSignal e ∧
       (isConflictSignal e = false →
        TimeSeriesResourceManager.get_or_create api s tn f =
          (.error (.apiError e), s,
            [ApiCall.create_tensorboard_time_series s.run_resource_id tn])))) := by
  refine ⟨?_, ?_, ?_⟩
  · intro api s n e hmiss hcr
    by_cases hcs : isConflictSignal e = true
    · cases e with
      | invalidArgument msg =>
        simp only [isConflictSignal] at hcs
        constructor
        · rw [grn_miss_trace api s n hmiss,
            cogr_conflict_trace api s n msg hcr hcs]
          simp [ApiCall.isListCall, isConflictSignal, hcs]
        · intro habs
          simp only [isConflictSignal, hcs] at habs
          cases habs
      | other k m => simp [isConflictSignal] at hcs
    · have hcs2 : isConflictSignal e = false := by
        cases hb : isConflictSignal e
        · rfl
        · exact absurd hb hcs
      have hres := grn_miss_err api s n (.apiError e) (bumpUuid s) _ hmiss
        (cogr_create_other api s n e hcr hcs2)
      constructor
      · rw [hres, hcs2]
        simp [ApiCall.isListCall]
      · intro _
        exact hres
  · intro api p tag f e hcr
    by_cases hcs : isConflictSignal e = true
    · cases e with
      | invalidArgument msg =>
        simp only [isConflictSignal] at hcs
        constructor
        · rw [cogts_conflict_trace api p tag f msg hcr hcs]
          simp [ApiCall.isListCall, isConflictSignal, hcs]
        · intro habs
          simp only [isConflictSignal, hcs] at habs
          cases habs
      | other k m => simp [isConflictSignal] at hcs
    · have hcs2 : isConflictSignal e = false := by
        cases hb : isConflictSignal e
        · rfl
        · exact absurd hb hcs
      have hres := cogts_create_other api p tag f e hcr hcs2
      constructor
      · rw [hres, hcs2]
        simp [ApiCall.isListCall]
      · intro _
        exact hres
  · intro api s tn f e hmiss hcr
    by_cases hcs : isConflictSignal e = true
    · cases e with
      | invalidArgument msg =>
        simp only [isConflictSignal] at hcs
        constructor
        · rw [goc_miss_trace api s tn f hmiss,
            cogts_conflict_trace api s.run_resource_id tn f msg hcr hcs]
          simp [ApiCall.isListCall, isConflictSignal, hcs]
        · intro habs
          simp only [isConflictSignal, hcs] at habs
          cases habs
      | other k m => simp [isConflictSignal] at hcs
    · have hcs2 : isConflictSignal e = false := by
        cases hb : isConflictSignal e
        · rfl
        · exact absurd hb hcs
      have hres := goc_miss_err api s tn f (.apiError e) _ hmiss
        (cogts_create_other api s.run_resource_id tn f e hcr hcs2)
      constructor
      · rw [hres, hcs2]
        simp [ApiCall.isListCall]
      · intro _
        exact hres

/-- Claim C9, witness: the dispatch iff at concrete inputs — a conflicting
`InvalidArgument` takes the fallback in the run resolver, a
permission-denied error skips it and propagates in the time-series body and
the manager. -/
theorem C9_conflict_dispatch_witness :
    ((OnePlatformResourceManager.get_run_resource_name dupApi
        (OnePlatformResourceManager.mk0 "exp1") "run-a").2.2.any
      ApiCall.isListCall =
        isConflictSignal (.invalidArgument "Run run-a already exists") ∧
     (isConflictSignal (.invalidArgument "Run run-a already exists") = false →
      OnePlatformResourceManager.get_run_resource_name dupApi
          (OnePlatformResourceManager.mk0 "exp1") "run-a" =
        (.error (.apiError (.invalidArgument "Run run-a already exists")),
          bumpUuid (OnePlatformResourceManager.mk0 "exp1"),
          [ApiCall.create_tensorboard_run "exp1" "run-a" "uuid-0"]))) ∧
    ((OnePlatformResourceManager.create_or_get_time_series otherErrApi
        "runs/9" "loss" plainCreator).2.any ApiCall.isListCall =
        isConflictSignal (.other "PermissionDenied" "caller lacks permission") ∧
     (isConflictSignal (.other "PermissionDenied" "caller lacks permission") =
        false →
      OnePlatformResourceManager.create_or_get_time_series otherErrApi
          "runs/9" "loss" plainCreator =
        (.error (.apiError (.other "PermissionDenied" "caller lacks permission")),
          [ApiCall.create_tensorboard_time_series "runs/9" "loss"]))) ∧
    ((TimeSeriesResourceManager.get_or_create otherErrApi
        (TimeSeriesResourceManager.mk0 "runs/9") "loss" plainCreator).2.2.any
      ApiCall.isListCall =
        isConflictSignal (.other "PermissionDenied" "caller lacks permission") ∧
     (isConflictSignal (.other "PermissionDenied" "caller lacks permission") =
        false →
      TimeSeriesResourceManager.get_or_create otherErrApi
          (TimeSeriesResourceManager.mk0 "runs/9") "loss" plainCreator =
        (.error (.apiError (.other "PermissionDenied" "caller lacks permission")),
          TimeSeriesResourceManager.mk0 "runs/9",
          [ApiCall.create_tensorboard_time_series "runs/9" "loss"]))) :=
  ⟨C9_conflict_dispatch.1 dupApi (OnePlatformResourceManager.mk0 "exp1") "run-a"
      (.invalidArgument "Run run-a already exists") rfl rfl,
   C9_conflict_dispatch.2.1 otherErrApi "runs/9" "loss" plainCreator
      (.other "PermissionDenied" "caller lacks permission") rfl,
   C9_conflict_dispatch.2.2 otherErrApi (TimeSeriesResourceManager.mk0 "runs/9")
      "loss" plainCreator
      (.other "PermissionDenied" "caller lacks permission") rfl rfl⟩

/-- Claim C10.  In two-level mode, when a resolve fails but its run step
succeeded, the run-name entry written while resolving the run survives in
the failed call's resulting state, while the `(run, tag)` time-series cache
is exactly as before the call. -/
theorem C10_run_cache_survives_ts_failure :
    ∀ (api : TensorboardServiceApi) (s : OnePlatformResourceManager)
      (rn tn : String) (f : Unit → Resource) (e : ResolveError)
      (s1 : OnePlatformResourceManager) (tr : List ApiCall) (rr : String)
      (s2 : OnePlatformResourceManager) (tr2 : List ApiCall),
      OnePlatformResourceManager.get_time_series_resource_name api s rn tn f =
        (.error e, s1, tr) →
      OnePlatformResourceManager.get_run_resource_name api s rn =
        (.ok rr, s2, tr2) →
      dictLookup s1.run_name_to_run_resource_name rn = some rr ∧
      s1.run_tag_name_to_time_series_name = s.run_tag_name_to_time_series_name := by
  intro api s rn tn f e s1 tr rr s2 tr2 h hr
  refine ⟨?_, gts_err_ts_map api s rn tn f e s1 tr h⟩
  unfold OnePlatformResourceManager.get_time_series_resource_name at h
  revert h
  split
  · intro h; cases h
  · rw [hr]
    simp only []
    split
    · next e2 tr3 heq2 =>
      intro h
      cases h
      exact grn_ok_cached api s rn rr _ _ hr
    · next ts tr3 heq2 => intro h; cases h

/-- Claim C10, witness: run creation succeeds, the time-series conflict
cannot be resolved; the run entry is cached in the failed call's state and
the time-series cache is unchanged. -/
theorem C10_run_cache_survives_witness :
    dictLookup
        (⟨"exp1", [("run-a", "runs/created-uuid-0")], [],
          1⟩ : OnePlatformResourceManager).run_name_to_run_resource_name
        "run-a" = some "runs/created-uuid-0" ∧
    (⟨"exp1", [("run-a", "runs/created-uuid-0")], [],
      1⟩ : OnePlatformResourceManager).run_tag_name_to_time_series_name =
      (OnePlatformResourceManager.mk0 "exp1").run_tag_name_to_time_series_name :=
  C10_run_cache_survives_ts_failure mixedApi
    (OnePlatformResourceManager.mk0 "exp1") "run-a" "loss" plainCreator
    (.existingResourceNotFound
      "Could not find time series resource with display name: loss")
    ⟨"exp1", [("run-a", "runs/created-uuid-0")], [], 1⟩
    [.create_tensorboard_run "exp1" "run-a" "uuid-0",
     .create_tensorboard_time_series "runs/created-uuid-0" "loss",
     .list_tensorboard_time_series "runs/created-uuid-0"
       (displayNameFilter "loss")]
    "runs/created-uuid-0"
    ⟨"exp1", [("run-a", "runs/created-uuid-0")], [], 1⟩
    [.create_tensorboard_run "exp1" "run-a" "uuid-0"]
    rfl rfl

end UploaderUtils
